import Mathlib

/-!
Verification development for the Futstar momentum-trading backend
(`backend/main.py` and `backend/oracle_service.py`).

The Python source is shallowly embedded: floats become rationals (`ℚ`),
Python ints become `ℤ`/`ℕ`, `datetime` timestamps become integer seconds,
dictionaries become functions into `Option`, and the HTTP error paths
(`HTTPException` raises) become an explicit error type. Randomly drawn
quantities (the Gaussian volatility draw, the generated exit momentum)
are passed in as explicit parameters so every theorem quantifies over
all possible draws.
-/

namespace Futstar

/-- An entry of the `recent_events` list consumed by
`MomentumCalculator.calculate_momentum`: a dict with keys `team` and
`type`. -/
structure MatchEvent where
  team : String
  type : String
deriving DecidableEq

/-- Floor of a rational as floor division of its reduced numerator by
its denominator (kept away from the `Int.floor` type class so that
closed instances evaluate by reduction). -/
def ratFloor (q : ℚ) : ℤ := Int.fdiv q.num q.den

/-- Truncation toward zero, the semantics of Python `int(...)` on a real
number: T-division of the reduced numerator by the denominator. -/
def truncQ (q : ℚ) : ℤ := Int.tdiv q.num q.den

/-- Shots term of the momentum formula (`main.py` lines 118-123):
share of home shots scaled to weight 20, neutral 10 when no shots. -/
def shots_score (shots_home shots_away : ℕ) : ℚ :=
  if 0 < shots_home + shots_away then
    ((shots_home : ℚ) / ((shots_home : ℚ) + (shots_away : ℚ))) * 20
  else 10

/-- Expected-goals term (`main.py` lines 125-130): share of home xG
scaled to weight 30, neutral 15 when total xG is not positive. -/
def xg_score (xg_home xg_away : ℚ) : ℚ :=
  if 0 < xg_home + xg_away then (xg_home / (xg_home + xg_away)) * 30
  else 15

/-- Predicate for a dangerous event of the given side
(`main.py` lines 140-145). -/
def dangerous_event (side : String) (e : MatchEvent) : Bool :=
  decide (e.team = side ∧
    (e.type = "shot" ∨ e.type = "corner" ∨ e.type = "dangerous_attack"))

/-- Recent-events term (`main.py` lines 136-146): neutral 5 when the list
is empty, otherwise `max 0 (min 10 (5 + recent_danger))` over the last
ten events. -/
def event_score (recent_events : List MatchEvent) : ℤ :=
  if recent_events.isEmpty then 5
  else
    let last10 := recent_events.drop (recent_events.length - 10)
    let recent_danger : ℤ :=
      (last10.countP (dangerous_event "home") : ℤ) -
      (last10.countP (dangerous_event "away") : ℤ)
    max 0 (min 10 (5 + recent_danger))

/-- `MomentumCalculator.calculate_momentum` (`main.py` lines 100-157).
The Gaussian volatility draw `random.gauss(0, 2)` is the explicit
parameter `noise`. -/
def calculate_momentum (possession : ℚ) (shots_home shots_away : ℕ)
    (xg_home xg_away : ℚ) (field_tilt : ℚ)
    (recent_events : List MatchEvent) (noise : ℚ) : ℤ :=
  let possession_score := possession * 0.2
  let field_tilt_score := ((field_tilt + 100) / 200) * 20
  let momentum := possession_score + shots_score shots_home shots_away +
    xg_score xg_home xg_away + field_tilt_score +
    (event_score recent_events : ℚ) + noise
  max 0 (min 100 (truncQ momentum))

/-- `MomentumOracle.validate_momentum_change`
(`oracle_service.py` lines 126-138): reject when the absolute change
exceeds `max_change` (the Python default is 20). -/
def validate_momentum_change (old_index new_index max_change : ℤ) : Bool :=
  if |new_index - old_index| > max_change then false else true

/-- C2: for every possession value, shot counts, xG values, field tilt,
event list and every value of the Gaussian noise draw,
`calculate_momentum` returns an integer in [0,100]; the all-zero
snapshot hits the neutral defaults (shots term 10, xG term 15) instead
of dividing by zero. Totality (never raising) is embedded by
`calculate_momentum` being a total function. -/
theorem calculate_momentum_bounded :
    (∀ (possession : ℚ) (shots_home shots_away : ℕ)
      (xg_home xg_away : ℚ) (field_tilt : ℚ)
      (recent_events : List MatchEvent) (noise : ℚ),
      0 ≤ calculate_momentum possession shots_home shots_away xg_home
          xg_away field_tilt recent_events noise ∧
      calculate_momentum possession shots_home shots_away xg_home
          xg_away field_tilt recent_events noise ≤ 100) ∧
    shots_score 0 0 = 10 ∧ xg_score 0 0 = 15 := by
  refine ⟨fun possession sh sa xh xa tilt evs noise => ?_, by decide,
    by norm_num [xg_score]⟩
  unfold calculate_momentum
  constructor
  · exact le_max_left _ _
  · exact max_le (by norm_num) (min_le_left _ _)

/-- C6: `validate_momentum_change` returns true iff
`|new_index - old_index| ≤ max_change`; in particular
`(50, 80, 20)` is rejected and `(50, 65, 20)` is accepted. -/
theorem validate_momentum_change_spec :
    (∀ old_index new_index max_change : ℤ,
      validate_momentum_change old_index new_index max_change = true ↔
        |new_index - old_index| ≤ max_change) ∧
    validate_momentum_change 50 80 20 = false ∧
    validate_momentum_change 50 65 20 = true := by
  refine ⟨fun old_index new_index max_change => ?_, by decide, by decide⟩
  unfold validate_momentum_change
  split
  · simp_all [not_lt]
  · simp_all [not_lt]

/-- `PositionType` enum (`main.py` lines 36-38). -/
inductive PositionType where
  | long
  | short
deriving DecidableEq

/-- `TradingPosition` model (`main.py` lines 73-83); timestamps are
integer seconds. -/
structure TradingPosition where
  position_id : String
  user_wallet : String
  match_id : String
  position_type : PositionType
  amount : ℚ
  entry_index : ℤ
  entry_time : ℤ
  window_duration : ℤ
  is_settled : Bool := false
  pnl : Option ℚ := none
deriving DecidableEq

/-- `OpenPositionRequest` model (`main.py` lines 85-90). -/
structure OpenPositionRequest where
  match_id : String
  position_type : PositionType
  amount : ℚ
  wallet_address : String
  window_duration : ℤ
deriving DecidableEq

/-- The `HTTPException` raises of the API endpoints. -/
inductive ApiError where
  | MatchNotFound
  | PositionNotFound
  | AlreadySettled
  | WindowNotElapsed
deriving DecidableEq

/-- The JSON body returned by a successful settle
(`main.py` lines 416-422). -/
structure SettleResult where
  position_id : String
  pnl : ℚ
  entry_index : ℤ
  exit_index : ℤ
  momentum_change : ℤ
deriving DecidableEq

/-- `DataStore` (`main.py` lines 259-266): `matches` is modelled by its
membership function (only membership and the match's minute are read,
and the minute only feeds the random generator), `positions` and
`user_positions` by functions into options/lists. -/
structure DataStore where
  matches' : String → Bool
  positions : String → Option TradingPosition
  user_positions : String → List String

/-- Round-half-to-even on rationals, the semantics of Python `round`
ties. -/
def roundHalfEven (q : ℚ) : ℤ :=
  if q - ratFloor q < 1/2 then ratFloor q
  else if 1/2 < q - ratFloor q then ratFloor q + 1
  else if ratFloor q % 2 = 0 then ratFloor q else ratFloor q + 1

/-- Python `round(x, 4)`. -/
def round4 (q : ℚ) : ℚ :=
  (roundHalfEven (q * 10000) : ℚ) / 10000

/-- `open_position` endpoint (`main.py` lines 326-360). The momentum
index generated at call time is the parameter `current_index`, the call
time is `now`, and the timestamp-derived position id is `new_pid`. The
endpoint checks only match existence; it performs no validation of the
request's `amount` or `window_duration`. -/
def open_position (store : DataStore) (request : OpenPositionRequest)
    (current_index : ℤ) (now : ℤ) (new_pid : String) :
    DataStore × Except ApiError TradingPosition :=
  if store.matches' request.match_id = false then
    (store, .error .MatchNotFound)
  else
    let position : TradingPosition :=
      { position_id := new_pid
        user_wallet := request.wallet_address
        match_id := request.match_id
        position_type := request.position_type
        amount := request.amount
        entry_index := current_index
        entry_time := now
        window_duration := request.window_duration
        is_settled := false
        pnl := none }
    ({ store with
        positions := fun k =>
          if k = new_pid then some position else store.positions k
        user_positions := fun w =>
          if w = request.wallet_address then
            store.user_positions w ++ [new_pid]
          else store.user_positions w },
     .ok position)

/-- `get_position` endpoint (`main.py` lines 362-367): read-only
lookup, the store is returned unchanged. -/
def get_position (store : DataStore) (position_id : String) :
    DataStore × Except ApiError TradingPosition :=
  match store.positions position_id with
  | none => (store, .error .PositionNotFound)
  | some p => (store, .ok p)

/-- `get_user_positions` endpoint (`main.py` lines 424-430): read-only
lookup of every stored position whose id is tracked for the wallet. -/
def get_user_positions (store : DataStore) (wallet_address : String) :
    DataStore × List TradingPosition :=
  (store, (store.user_positions wallet_address).filterMap store.positions)

/-- The PnL computation of `settle_position` (`main.py` lines 391-411)
before the rounding of line 414: the winning side (LONG with positive
`momentum_change`, SHORT with negative) earns
`amount * (|momentum_change|/100)` minus a 2% fee, any other outcome
loses the whole stake. -/
def settle_pnl_code (position : TradingPosition) (exit_index : ℤ) : ℚ :=
  match position.position_type with
  | .long =>
    if 0 < exit_index - position.entry_index then
      position.amount * ((|exit_index - position.entry_index| : ℤ) : ℚ) /
        100 * 0.98
    else -position.amount
  | .short =>
    if exit_index - position.entry_index < 0 then
      position.amount * ((|exit_index - position.entry_index| : ℤ) : ℚ) /
        100 * 0.98
    else -position.amount

/-- The mutation `position.is_settled = True; position.pnl = round(pnl, 4)`
of `main.py` lines 413-414. -/
def settled_position (position : TradingPosition) (exit_index : ℤ) :
    TradingPosition :=
  { position with
    is_settled := true
    pnl := some (round4 (settle_pnl_code position exit_index)) }

/-- The response body of a successful settle (`main.py` lines 416-422). -/
def settle_result (position_id : String) (position : TradingPosition)
    (exit_index : ℤ) : SettleResult :=
  { position_id := position_id
    pnl := round4 (settle_pnl_code position exit_index)
    entry_index := position.entry_index
    exit_index := exit_index
    momentum_change := exit_index - position.entry_index }

/-- `settle_position` endpoint (`main.py` lines 369-422). The momentum
index generated as the exit reading is the parameter `exit_index`; the
`data_store.matches[position.match_id]` lookup of line 385 is the
`store.matches` guard (in Python a missing match there would escape as
an unhandled `KeyError`). -/
def settle_position (store : DataStore) (position_id : String)
    (now : ℤ) (exit_index : ℤ) :
    DataStore × Except ApiError SettleResult :=
  match store.positions position_id with
  | none => (store, .error .PositionNotFound)
  | some position =>
    if position.is_settled then (store, .error .AlreadySettled)
    else if now < position.entry_time + position.window_duration then
      (store, .error .WindowNotElapsed)
    else if store.matches' position.match_id = false then
      (store, .error .MatchNotFound)
    else
      ({ store with
          positions := fun k =>
            if k = position_id then
              some (settled_position position exit_index)
            else store.positions k },
       .ok (settle_result position_id position exit_index))

/-- The observable outcome of one iteration of `monitor_match`'s while
loop (`oracle_service.py` lines 148-184): one fetch attempt, optionally
followed by a validation and a publish attempt. A tick in which the
fetch returns no data, or any exception is caught by the surrounding
`try`, is `fetchFail`; a successful fetch carries the fetched
`momentum_index` and the outcome the publish attempt would have. -/
inductive TickInput where
  | fetchFail
  | fetchOk (idx : ℤ) (publish_ok : Bool)
deriving DecidableEq

/-- What a tick did towards the ledger: appended an update record for
the given index, attempted a publish that failed, or never attempted a
publish at all. -/
inductive TickOutcome where
  | published (idx : ℤ)
  | publishFailed
  | noPublish
deriving DecidableEq

/-- The per-match local state of `monitor_match`
(`oracle_service.py` lines 144-145). -/
structure MonitorState where
  last_momentum : ℤ
  consecutive_failures : ℕ
deriving DecidableEq

/-- `max_failures` local of `monitor_match` (`oracle_service.py`
line 146). -/
def max_failures : ℕ := 5

/-- Initial per-match monitor state (`oracle_service.py` lines
144-145): `last_momentum = 50`, `consecutive_failures = 0`. -/
def monitorInit : MonitorState :=
  { last_momentum := 50, consecutive_failures := 0 }

/-- One iteration of the `while` body of `monitor_match`
(`oracle_service.py` lines 148-184): on fetch failure increment the
counter; on fetch success validate against `last_momentum` with
`max_change = 20`; on validation failure only log; on publish success
set `last_momentum` to the new index and reset the counter to 0; on
publish failure increment the counter. -/
def monitorTick (s : MonitorState) (inp : TickInput) :
    MonitorState × TickOutcome :=
  match inp with
  | .fetchFail =>
    ({ s with consecutive_failures := s.consecutive_failures + 1 },
     .noPublish)
  | .fetchOk idx publish_ok =>
    if validate_momentum_change s.last_momentum idx 20 then
      if publish_ok then
        ({ last_momentum := idx, consecutive_failures := 0 },
         .published idx)
      else
        ({ s with consecutive_failures := s.consecutive_failures + 1 },
         .publishFailed)
    else (s, .noPublish)

/-- Insertion `self.active_matches[match_id] = momentum_data`
performed on a successful publish (`oracle_service.py` line 167),
modelled on the membership function of the active set. -/
def insertActive (active : String → Bool) (mid : String) :
    String → Bool :=
  fun k => if k = mid then true else active k

/-- Deletion `del self.active_matches[match_id]`
(`oracle_service.py` lines 187-188); a no-op on absent keys, as the
Python guard `if match_id in self.active_matches` makes it. -/
def removeActive (active : String → Bool) (mid : String) :
    String → Bool :=
  fun k => if k = mid then false else active k

/-- Effect of one tick's outcome on the active set: only a successful
publish touches it (`oracle_service.py` line 167). -/
def applyOutcome (active : String → Bool) (mid : String) :
    TickOutcome → (String → Bool)
  | .published _ => insertActive active mid
  | _ => active

/-- The `while consecutive_failures < max_failures` loop of
`monitor_match`, run over a finite prefix of tick inputs: each tick is
executed only while the counter is below `max_failures`. -/
def runMonitor (active : String → Bool) (mid : String)
    (s : MonitorState) : List TickInput → (String → Bool) × MonitorState
  | [] => (active, s)
  | inp :: rest =>
    if s.consecutive_failures < max_failures then
      runMonitor (applyOutcome active mid (monitorTick s inp).2) mid
        (monitorTick s inp).1 rest
    else (active, s)

/-- Number of loop iterations `runMonitor` actually executes. -/
def ticksRun (s : MonitorState) : List TickInput → ℕ
  | [] => 0
  | inp :: rest =>
    if s.consecutive_failures < max_failures then
      ticksRun (monitorTick s inp).1 rest + 1
    else 0

/-- `monitor_match` tail (`oracle_service.py` lines 148-188): run the
loop, and when it has exited because the failure threshold was reached,
delete the match from the active set. -/
def monitor_loop_end (active : String → Bool) (mid : String)
    (s : MonitorState) (inputs : List TickInput) :
    (String → Bool) × MonitorState :=
  let as' := runMonitor active mid s inputs
  if max_failures ≤ as'.2.consecutive_failures then
    (removeActive as'.1 mid, as'.2)
  else as'

/-- `monitor_match` as a whole: the loop starts from the fresh local
state `monitorInit` (`oracle_service.py` lines 140-188). -/
def monitor_match (active : String → Bool) (mid : String)
    (inputs : List TickInput) : (String → Bool) × MonitorState :=
  monitor_loop_end active mid monitorInit inputs

/-- PnL of a settled position as the specification describes it, given
the position's direction, stake and the index delta: a winning side
earns `amount * (|delta|/100) * 0.98`, a losing side (including
`delta = 0`) loses the full stake, with the stored value rounded to 4
decimals in both branches. This spec-side definition is compared with
the `settle_position` embedding of the code. -/
def spec_settle_pnl (position_type : PositionType) (amount : ℚ)
    (delta : ℤ) : ℚ :=
  match position_type with
  | .long =>
    if 0 < delta then round4 (amount * ((|delta| : ℤ) : ℚ) / 100 * 0.98)
    else round4 (-amount)
  | .short =>
    if delta < 0 then round4 (amount * ((|delta| : ℤ) : ℚ) / 100 * 0.98)
    else round4 (-amount)

/-- Concrete unsettled LONG position: stake 100, entry index 40, entry
time 0, window 300 seconds. -/
def cPosLong : TradingPosition :=
  { position_id := "p1", user_wallet := "w1", match_id := "m1",
    position_type := .long, amount := 100, entry_index := 40,
    entry_time := 0, window_duration := 300 }

/-- The same position taken SHORT. -/
def cPosShort : TradingPosition := { cPosLong with position_type := .short }

/-- LONG position whose stake `0.00001` has more than 4 decimal
places. -/
def cPosTiny : TradingPosition := { cPosLong with amount := 1/100000 }

/-- Store holding match `m1` and the single position `p1`. -/
def cStore (p : TradingPosition) : DataStore :=
  { matches' := fun m => m == "m1"
    positions := fun k => if k = "p1" then some p else none
    user_positions := fun w => if w = "w1" then ["p1"] else [] }

/-- A settle call on a stored, unsettled position whose window has
elapsed and whose match exists updates exactly that position's entry of
the store and returns the computed settle result. -/
theorem settle_position_success (store : DataStore) (pid : String)
    (p : TradingPosition) (now exit_index : ℤ)
    (hp : store.positions pid = some p) (hset : p.is_settled = false)
    (hwin : p.entry_time + p.window_duration ≤ now)
    (hmatch : store.matches' p.match_id = true) :
    settle_position store pid now exit_index =
      ({ store with
          positions := fun k =>
            if k = pid then some (settled_position p exit_index)
            else store.positions k },
       .ok (settle_result pid p exit_index)) := by
  unfold settle_position
  rw [hp]
  simp only [hset, Bool.false_eq_true, if_false,
    if_neg (not_lt.2 hwin), hmatch, Bool.true_eq_false]

/-- A settle call on a stored position already marked settled fails with
`AlreadySettled` and leaves the store unchanged. -/
theorem settle_position_of_settled (store : DataStore) (pid : String)
    (p : TradingPosition) (now exit_index : ℤ)
    (hp : store.positions pid = some p) (hset : p.is_settled = true) :
    settle_position store pid now exit_index =
      (store, .error .AlreadySettled) := by
  unfold settle_position
  rw [hp]
  simp [hset]

unseal Rat.mul Rat.add Rat.sub Rat.inv Rat.ofScientific in
/-- C1 counterexample: settling the unsettled LONG position of stake
`0.00001` with `delta = 0` stores PnL `0`, not `-amount = -0.00001` as
the claim states for the losing branch. -/
theorem settle_pnl_loss_not_exact_counterexample :
    (settle_position (cStore cPosTiny) "p1" 300 40).2 =
      .ok { position_id := "p1", pnl := 0, entry_index := 40,
            exit_index := 40, momentum_change := 0 } ∧
    (settle_position (cStore cPosTiny) "p1" 300 40).1.positions "p1" =
      some { cPosTiny with is_settled := true, pnl := some 0 } ∧
    (0 : ℚ) ≠ -cPosTiny.amount := by
  refine ⟨rfl, rfl, by norm_num [cPosTiny, cPosLong]⟩

unseal Rat.mul Rat.add Rat.sub Rat.inv Rat.ofScientific in
/-- C1 (amended): for every position that settles successfully, the
stored PnL and the returned PnL equal `spec_settle_pnl`: the winning
side earns `amount * (|delta|/100) * 0.98` rounded to 4 decimals, the
losing side (including `delta = 0`, and `delta ≥ 0` for SHORT) has
`-amount` rounded to 4 decimals stored; in particular entry 40, exit
60, amount 100 yields 19.6 for LONG and -100 for SHORT. -/
theorem settle_pnl_spec :
    (∀ (store : DataStore) (pid : String) (p : TradingPosition)
      (now exit_index : ℤ),
      store.positions pid = some p → p.is_settled = false →
      p.entry_time + p.window_duration ≤ now →
      store.matches' p.match_id = true →
      ∃ store' r,
        settle_position store pid now exit_index = (store', .ok r) ∧
        store'.positions pid =
          some { p with is_settled := true, pnl := some r.pnl } ∧
        r.entry_index = p.entry_index ∧ r.exit_index = exit_index ∧
        r.momentum_change = exit_index - p.entry_index ∧
        r.pnl = spec_settle_pnl p.position_type p.amount
          (exit_index - p.entry_index)) ∧
    (settle_position (cStore cPosLong) "p1" 300 60).2 =
      .ok { position_id := "p1", pnl := 19.6, entry_index := 40,
            exit_index := 60, momentum_change := 20 } ∧
    (settle_position (cStore cPosShort) "p1" 300 60).2 =
      .ok { position_id := "p1", pnl := -100, entry_index := 40,
            exit_index := 60, momentum_change := 20 } := by
  refine ⟨?_, rfl, rfl⟩
  intro store pid p now exit_index hp hset hwin hmatch
  refine ⟨_, _, settle_position_success store pid p now exit_index
    hp hset hwin hmatch, ?_, rfl, rfl, rfl, ?_⟩
  · show (if pid = pid then some (settled_position p exit_index)
        else store.positions pid) = _
    rw [if_pos rfl]
    rfl
  · show round4 (settle_pnl_code p exit_index) = _
    cases hpt : p.position_type <;>
      simp only [settle_pnl_code, spec_settle_pnl, hpt] <;>
      exact apply_ite round4 _ _ _

/-- A settle that succeeds now and is rejected as `AlreadySettled` on
every subsequent call; the store after success is the store every later
call leaves untouched. -/
def SettlesExactlyOnce (store : DataStore) (pid : String)
    (now exit_index : ℤ) : Prop :=
  ∃ store' r,
    settle_position store pid now exit_index = (store', .ok r) ∧
    ∀ now2 exit2,
      settle_position store' pid now2 exit2 =
        (store', .error .AlreadySettled)

/-- C3: for every stored unsettled position, settling before
`entry_time + window_duration` fails with `WindowNotElapsed` and leaves
the store (hence the position) unchanged; once the window has elapsed
the settle succeeds exactly once, every subsequent call failing with
`AlreadySettled`. -/
theorem settle_window_lifecycle :
    ∀ (store : DataStore) (pid : String) (p : TradingPosition)
      (now exit_index : ℤ),
    store.positions pid = some p → p.is_settled = false →
    ((now < p.entry_time + p.window_duration →
        settle_position store pid now exit_index =
          (store, .error .WindowNotElapsed)) ∧
     (p.entry_time + p.window_duration ≤ now →
      store.matches' p.match_id = true →
        SettlesExactlyOnce store pid now exit_index)) := by
  intro store pid p now exit_index hp hset
  constructor
  · intro hlt
    unfold settle_position
    rw [hp]
    simp only [hset, Bool.false_eq_true, if_false, if_pos hlt]
  · intro hwin hmatch
    refine ⟨_, _, settle_position_success store pid p now exit_index
      hp hset hwin hmatch, ?_⟩
    intro now2 exit2
    exact settle_position_of_settled _ pid
      (settled_position p exit_index) now2 exit2 (by simp) rfl

/-- Store with match `m1` known and no positions. -/
def cStoreEmpty : DataStore :=
  { matches' := fun m => m == "m1"
    positions := fun _ => none
    user_positions := fun _ => [] }

/-- Open request with non-positive amount and window. -/
def cBadRequest : OpenPositionRequest :=
  { match_id := "m1", position_type := .long, amount := -5,
    wallet_address := "w1", window_duration := -10 }

/-- The position `open_position` creates from `cBadRequest`. -/
def cBadPosition : TradingPosition :=
  { position_id := "p1", user_wallet := "w1", match_id := "m1",
    position_type := .long, amount := -5, entry_index := 55,
    entry_time := 0, window_duration := -10 }

/-- C4 counterexample: an open request with `amount = -5 ≤ 0` and
`window_duration = -10 ≤ 0` against a known match does not fail — the
position is created and stored (the endpoint has no `InvalidRequest`
path at all). -/
theorem open_position_no_validation_counterexample :
    cBadRequest.amount ≤ 0 ∧ cBadRequest.window_duration ≤ 0 ∧
    (open_position cStoreEmpty cBadRequest 55 0 "p1").2 =
      .ok cBadPosition ∧
    (open_position cStoreEmpty cBadRequest 55 0 "p1").1.positions "p1" =
      some cBadPosition := by
  refine ⟨by norm_num [cBadRequest], by norm_num [cBadRequest], rfl, rfl⟩

/-- C4 (amended): `open_position` validates only match existence — an
unknown match fails with `MatchNotFound` and leaves the store
unchanged, while any request against a known match (including
`amount ≤ 0` or `window_duration ≤ 0`) succeeds and the new position is
stored, carrying the request's amount and window unmodified. -/
theorem open_position_spec :
    ∀ (store : DataStore) (request : OpenPositionRequest)
      (current_index now : ℤ) (new_pid : String),
    (store.matches' request.match_id = false →
      open_position store request current_index now new_pid =
        (store, .error .MatchNotFound)) ∧
    (store.matches' request.match_id = true →
      ∃ store' position,
        open_position store request current_index now new_pid =
          (store', .ok position) ∧
        store'.positions new_pid = some position ∧
        position.amount = request.amount ∧
        position.window_duration = request.window_duration ∧
        position.position_type = request.position_type ∧
        position.match_id = request.match_id ∧
        position.user_wallet = request.wallet_address ∧
        position.entry_index = current_index ∧
        position.entry_time = now ∧
        position.is_settled = false ∧ position.pnl = none) := by
  intro store request current_index now new_pid
  constructor
  · intro hmiss
    unfold open_position
    rw [if_pos hmiss]
  · intro hknown
    unfold open_position
    rw [if_neg (by simp [hknown])]
    exact ⟨_, _, rfl, by simp, rfl, rfl, rfl, rfl, rfl, rfl, rfl, rfl, rfl⟩

/-- The store invariant of the spec: a stored position's PnL is present
exactly when its settled flag is set. -/
def StoreInv (store : DataStore) : Prop :=
  ∀ pid p, store.positions pid = some p → p.pnl.isSome = p.is_settled

/-- C5: every operation preserves the invariant that `pnl` is non-null
iff `is_settled` is true, and no operation ever changes a stored
position's `amount`, `window_duration`, `entry_index`, `entry_time`,
identity or direction — `settle_position` flips only `is_settled` and
`pnl` of the target position, `open_position` touches no existing
position id, and the lookups return the store unchanged. -/
theorem position_invariants :
    ∀ (store : DataStore) (request : OpenPositionRequest)
      (current_index now : ℤ) (new_pid pid : String)
      (now2 exit_index : ℤ) (wallet : String),
    (StoreInv store →
      StoreInv (open_position store request current_index now new_pid).1) ∧
    (StoreInv store →
      StoreInv (settle_position store pid now2 exit_index).1) ∧
    (∀ pid' q,
      (settle_position store pid now2 exit_index).1.positions pid' =
        some q →
      ∃ p0, store.positions pid' = some p0 ∧ q.amount = p0.amount ∧
        q.window_duration = p0.window_duration ∧
        q.entry_index = p0.entry_index ∧ q.entry_time = p0.entry_time ∧
        q.position_id = p0.position_id ∧
        q.user_wallet = p0.user_wallet ∧ q.match_id = p0.match_id ∧
        q.position_type = p0.position_type) ∧
    (∀ pid', pid' ≠ new_pid →
      (open_position store request current_index now new_pid).1.positions
        pid' = store.positions pid') ∧
    (get_position store pid).1 = store ∧
    (get_user_positions store wallet).1 = store := by
  intro store request current_index now new_pid pid now2 exit_index wallet
  refine ⟨?_, ?_, ?_, ?_, ?_, rfl⟩
  · intro hinv
    unfold open_position
    split
    · exact hinv
    · intro pid' q hq
      simp only at hq
      by_cases hpid : pid' = new_pid
      · rw [hpid, if_pos rfl] at hq
        cases hq
        rfl
      · rw [if_neg hpid] at hq
        exact hinv pid' q hq
  · intro hinv
    unfold settle_position
    cases hsp : store.positions pid with
    | none => exact hinv
    | some position =>
      by_cases hset : position.is_settled
      · simp only [hset, if_true]
        exact hinv
      · simp only [hset, if_false, Bool.false_eq_true]
        by_cases hw : now2 < position.entry_time + position.window_duration
        · rw [if_pos hw]
          exact hinv
        · rw [if_neg hw]
          by_cases hm : store.matches' position.match_id = false
          · rw [if_pos hm]
            exact hinv
          · rw [if_neg hm]
            intro pid' q hq
            simp only at hq
            by_cases hpid : pid' = pid
            · rw [hpid, if_pos rfl] at hq
              cases hq
              rfl
            · rw [if_neg hpid] at hq
              exact hinv pid' q hq
  · intro pid' q hq
    unfold settle_position at hq
    revert hq
    cases hsp : store.positions pid with
    | none => exact fun hq => ⟨q, hq, rfl, rfl, rfl, rfl, rfl, rfl, rfl, rfl⟩
    | some position =>
      by_cases hset : position.is_settled
      · simp only [hset, if_true]
        exact fun hq => ⟨q, hq, rfl, rfl, rfl, rfl, rfl, rfl, rfl, rfl⟩
      · simp only [hset, if_false, Bool.false_eq_true]
        by_cases hw : now2 < position.entry_time + position.window_duration
        · rw [if_pos hw]
          exact fun hq => ⟨q, hq, rfl, rfl, rfl, rfl, rfl, rfl, rfl, rfl⟩
        · rw [if_neg hw]
          by_cases hm : store.matches' position.match_id = false
          · rw [if_pos hm]
            exact fun hq => ⟨q, hq, rfl, rfl, rfl, rfl, rfl, rfl, rfl, rfl⟩
          · rw [if_neg hm]
            intro hq
            simp only at hq
            by_cases hpid : pid' = pid
            · rw [hpid, if_pos rfl] at hq
              cases hq
              exact ⟨position, hpid ▸ hsp, rfl, rfl, rfl, rfl, rfl, rfl,
                rfl, rfl⟩
            · rw [if_neg hpid] at hq
              exact ⟨q, hq, rfl, rfl, rfl, rfl, rfl, rfl, rfl, rfl⟩
  · intro pid' hpid
    unfold open_position
    split
    · rfl
    · simp only [if_neg hpid]
  · unfold get_position
    cases store.positions pid <;> rfl

/-- C7: once a match's consecutive-failure counter has reached
`max_failures = 5`, the monitor loop runs no further tick (state and
active set are left as they are, zero iterations execute) and
`monitor_loop_end` removes the match from the active set; while the
counter is below 5 the loop executes the next tick and continues. -/
theorem monitor_failure_stop :
    ∀ (active : String → Bool) (mid : String) (s : MonitorState)
      (inputs rest : List TickInput) (inp : TickInput),
    (max_failures ≤ s.consecutive_failures →
      runMonitor active mid s inputs = (active, s) ∧
      ticksRun s inputs = 0 ∧
      (monitor_loop_end active mid s inputs).1 mid = false) ∧
    (s.consecutive_failures < max_failures →
      runMonitor active mid s (inp :: rest) =
        runMonitor (applyOutcome active mid (monitorTick s inp).2) mid
          (monitorTick s inp).1 rest ∧
      ticksRun s (inp :: rest) =
        ticksRun (monitorTick s inp).1 rest + 1) := by
  intro active mid s inputs rest inp
  constructor
  · intro hstop
    have hrun : runMonitor active mid s inputs = (active, s) := by
      cases inputs with
      | nil => rfl
      | cons inp' rest' =>
        unfold runMonitor
        rw [if_neg (by omega)]
    have hticks : ticksRun s inputs = 0 := by
      cases inputs with
      | nil => rfl
      | cons inp' rest' =>
        unfold ticksRun
        rw [if_neg (by omega)]
    refine ⟨hrun, hticks, ?_⟩
    unfold monitor_loop_end
    rw [hrun]
    simp only [if_pos hstop]
    unfold removeActive
    rw [if_pos rfl]
  · intro hgo
    constructor
    · unfold runMonitor
      rw [if_pos hgo]
      cases rest <;> rfl
    · unfold ticksRun
      rw [if_pos hgo]
      cases rest <;> rfl

/-- C8 counterexample: a tick whose fetch succeeds (index 55, a valid
change from 50) but whose publish fails increments the failure counter
from 2 to 3 — it is not reset to 0 as the claim states. -/
theorem monitor_reset_counterexample :
    (monitorTick { last_momentum := 50, consecutive_failures := 2 }
      (.fetchOk 55 false)).1.consecutive_failures = 3 ∧ (3 : ℕ) ≠ 0 := by
  refine ⟨rfl, by omega⟩

/-- C8 (amended): on a fetch-success tick the counter is reset to 0
only when the reading also passes validation and the publish succeeds;
with a failed publish the counter is incremented instead, and with a
failed validation the whole monitor state is left unchanged. -/
theorem monitor_counter_reset_spec :
    ∀ (s : MonitorState) (idx : ℤ) (publish_ok : Bool),
    (validate_momentum_change s.last_momentum idx 20 = true →
      publish_ok = true →
      (monitorTick s (.fetchOk idx publish_ok)).1.consecutive_failures
        = 0) ∧
    (validate_momentum_change s.last_momentum idx 20 = true →
      publish_ok = false →
      (monitorTick s (.fetchOk idx publish_ok)).1.consecutive_failures
        = s.consecutive_failures + 1) ∧
    (validate_momentum_change s.last_momentum idx 20 = false →
      (monitorTick s (.fetchOk idx publish_ok)).1 = s) := by
  intro s idx publish_ok
  refine ⟨?_, ?_, ?_⟩
  · intro hv hpub
    unfold monitorTick
    rw [hpub]
    simp only [hv, if_true]
  · intro hv hpub
    unfold monitorTick
    rw [hpub]
    simp only [hv, if_true, Bool.false_eq_true, if_false]
  · intro hv
    unfold monitorTick
    simp only [hv, Bool.false_eq_true, if_false]

/-- C9: a tick whose fetched reading fails the momentum-change
validation publishes nothing and leaves the whole per-match monitor
state — `last_momentum` and `consecutive_failures` — unchanged. -/
theorem monitor_invalid_reading_frame :
    ∀ (s : MonitorState) (idx : ℤ) (publish_ok : Bool),
    validate_momentum_change s.last_momentum idx 20 = false →
    monitorTick s (.fetchOk idx publish_ok) = (s, .noPublish) := by
  intro s idx publish_ok hv
  unfold monitorTick
  simp only [hv, Bool.false_eq_true, if_false]

/-- C10: a fresh monitor starts with `last_momentum = 50` (and a zero
failure counter) before any fetch, so its first successfully fetched
reading is validated against 50 and — when the publish succeeds — is
published exactly when its index lies in [30,70]; outside that band the
first reading is rejected without a publish attempt. -/
theorem monitor_initial_trust_band :
    monitorInit.last_momentum = 50 ∧
    monitorInit.consecutive_failures = 0 ∧
    (∀ idx : ℤ, validate_momentum_change 50 idx 20 = true ↔
      30 ≤ idx ∧ idx ≤ 70) ∧
    (∀ idx : ℤ,
      (monitorTick monitorInit (.fetchOk idx true)).2 = .published idx ↔
        30 ≤ idx ∧ idx ≤ 70) ∧
    (∀ idx : ℤ,
      (monitorTick monitorInit (.fetchOk idx true)).2 = .noPublish ↔
        ¬(30 ≤ idx ∧ idx ≤ 70)) := by
  have hv : ∀ idx : ℤ, validate_momentum_change 50 idx 20 = true ↔
      30 ≤ idx ∧ idx ≤ 70 := by
    intro idx
    unfold validate_momentum_change
    by_cases hgt : |idx - 50| > 20
    · rw [if_pos hgt]
      rw [gt_iff_lt, lt_abs] at hgt
      constructor
      · intro hfalse
        exact absurd hfalse Bool.false_ne_true
      · intro hband
        exfalso
        rcases hgt with h | h <;> omega
    · rw [if_neg hgt]
      rw [gt_iff_lt, not_lt, abs_le] at hgt
      exact ⟨fun _ => by omega, fun _ => rfl⟩
  refine ⟨rfl, rfl, hv, ?_, ?_⟩
  · intro idx
    constructor
    · intro h
      by_contra hc
      have hv' : validate_momentum_change 50 idx 20 = false := by
        cases hb : validate_momentum_change 50 idx 20 with
        | false => rfl
        | true => exact absurd ((hv idx).1 hb) hc
      unfold monitorTick at h
      simp only [monitorInit, hv', Bool.false_eq_true, if_false] at h
      cases h
    · intro h
      unfold monitorTick
      simp only [monitorInit, (hv idx).2 h, if_true]
  · intro idx
    constructor
    · intro h hc
      unfold monitorTick at h
      simp only [monitorInit, (hv idx).2 hc, if_true] at h
      cases h
    · intro hc
      have hv' : validate_momentum_change 50 idx 20 = false := by
        cases hb : validate_momentum_change 50 idx 20 with
        | false => rfl
        | true => exact absurd ((hv idx).1 hb) hc
      unfold monitorTick
      simp only [monitorInit, hv', Bool.false_eq_true, if_false]

/-- Witness for C2: the bounds evaluated at a concrete snapshot. -/
theorem calculate_momentum_bounded_witness :
    0 ≤ calculate_momentum 50 3 2 (3/10) (1/10) 20 [] 1 ∧
    calculate_momentum 50 3 2 (3/10) (1/10) 20 [] 1 ≤ 100 :=
  calculate_momentum_bounded.1 50 3 2 (3/10) (1/10) 20 [] 1

/-- Witness for C6: the characterisation applied at `(50, 65, 20)`. -/
theorem validate_momentum_change_spec_witness :
    |(65 : ℤ) - 50| ≤ 20 ∧ validate_momentum_change 50 65 20 = true :=
  ⟨by decide, (validate_momentum_change_spec.1 50 65 20).2 (by decide)⟩

/-- Witness for C1: the amended PnL law applied to the concrete LONG
position settled at exit index 60. -/
theorem settle_pnl_spec_witness :
    (cStore cPosLong).positions "p1" = some cPosLong ∧
    cPosLong.is_settled = false ∧
    cPosLong.entry_time + cPosLong.window_duration ≤ (300 : ℤ) ∧
    (cStore cPosLong).matches' cPosLong.match_id = true ∧
    (∃ store' r,
      settle_position (cStore cPosLong) "p1" 300 60 = (store', .ok r) ∧
      store'.positions "p1" =
        some { cPosLong with is_settled := true, pnl := some r.pnl } ∧
      r.entry_index = cPosLong.entry_index ∧ r.exit_index = 60 ∧
      r.momentum_change = 60 - cPosLong.entry_index ∧
      r.pnl = spec_settle_pnl cPosLong.position_type cPosLong.amount
        (60 - cPosLong.entry_index)) :=
  ⟨rfl, rfl, by decide, rfl,
    settle_pnl_spec.1 (cStore cPosLong) "p1" cPosLong 300 60 rfl rfl
      (by decide) rfl⟩

/-- Witness for C3: the concrete LONG position is rejected with
`WindowNotElapsed` at time 100 and settles exactly once at time 300. -/
theorem settle_window_lifecycle_witness :
    settle_position (cStore cPosLong) "p1" 100 60 =
      (cStore cPosLong, .error .WindowNotElapsed) ∧
    SettlesExactlyOnce (cStore cPosLong) "p1" 300 60 :=
  ⟨(settle_window_lifecycle (cStore cPosLong) "p1" cPosLong 100 60
      rfl rfl).1 (by decide),
   (settle_window_lifecycle (cStore cPosLong) "p1" cPosLong 300 60
      rfl rfl).2 (by decide) rfl⟩

/-- Witness for C4: an unknown match is rejected, and the invalid
request against the known match succeeds with the stored position
carrying its fields. -/
theorem open_position_spec_witness :
    open_position cStoreEmpty { cBadRequest with match_id := "m2" }
      55 0 "p1" = (cStoreEmpty, .error .MatchNotFound) ∧
    (∃ store' position,
      open_position cStoreEmpty cBadRequest 55 0 "p1" =
        (store', .ok position) ∧
      store'.positions "p1" = some position ∧
      position.amount = cBadRequest.amount ∧
      position.window_duration = cBadRequest.window_duration ∧
      position.position_type = cBadRequest.position_type ∧
      position.match_id = cBadRequest.match_id ∧
      position.user_wallet = cBadRequest.wallet_address ∧
      position.entry_index = 55 ∧ position.entry_time = 0 ∧
      position.is_settled = false ∧ position.pnl = none) :=
  ⟨(open_position_spec cStoreEmpty { cBadRequest with match_id := "m2" }
      55 0 "p1").1 rfl,
   (open_position_spec cStoreEmpty cBadRequest 55 0 "p1").2 rfl⟩

/-- Witness for C5: the invariant holds of the empty store and is
preserved by a concrete open and a concrete settle. -/
theorem position_invariants_witness :
    StoreInv cStoreEmpty ∧
    StoreInv (open_position cStoreEmpty cBadRequest 55 0 "p1").1 ∧
    StoreInv (cStore cPosLong) ∧
    StoreInv (settle_position (cStore cPosLong) "p1" 300 60).1 := by
  have h0 : StoreInv cStoreEmpty := by
    intro pid p h
    exact Option.noConfusion h
  have h1 : StoreInv (cStore cPosLong) := by
    intro pid p h
    by_cases hp : pid = "p1"
    · subst hp
      simp [cStore] at h
      rw [← h]
      rfl
    · simp [cStore, hp] at h
  exact ⟨h0,
    (position_invariants cStoreEmpty cBadRequest 55 0 "p1" "p1" 300 60
      "w1").1 h0,
    h1,
    (position_invariants (cStore cPosLong) cBadRequest 55 0 "p1" "p1" 300
      60 "w1").2.1 h1⟩

/-- Witness for C7: with the counter at 5 the loop executes nothing and
the match is removed; with the counter at 0 the next tick executes. -/
theorem monitor_failure_stop_witness :
    (runMonitor (fun _ => true) "m"
        { last_momentum := 50, consecutive_failures := 5 }
        [TickInput.fetchFail] =
      ((fun _ => true), { last_momentum := 50, consecutive_failures := 5 }) ∧
     ticksRun { last_momentum := 50, consecutive_failures := 5 }
        [TickInput.fetchFail] = 0 ∧
     (monitor_loop_end (fun _ => true) "m"
        { last_momentum := 50, consecutive_failures := 5 }
        [TickInput.fetchFail]).1 "m" = false) ∧
    (runMonitor (fun _ => true) "m"
        { last_momentum := 50, consecutive_failures := 0 }
        (TickInput.fetchFail :: []) =
      runMonitor
        (applyOutcome (fun _ => true) "m"
          (monitorTick { last_momentum := 50, consecutive_failures := 0 }
            TickInput.fetchFail).2) "m"
        (monitorTick { last_momentum := 50, consecutive_failures := 0 }
          TickInput.fetchFail).1 [] ∧
     ticksRun { last_momentum := 50, consecutive_failures := 0 }
        (TickInput.fetchFail :: []) =
      ticksRun (monitorTick { last_momentum := 50, consecutive_failures := 0 }
        TickInput.fetchFail).1 [] + 1) :=
  ⟨(monitor_failure_stop (fun _ => true) "m"
      { last_momentum := 50, consecutive_failures := 5 }
      [TickInput.fetchFail] [] TickInput.fetchFail).1 (by decide),
   (monitor_failure_stop (fun _ => true) "m"
      { last_momentum := 50, consecutive_failures := 0 }
      [] [] TickInput.fetchFail).2 (by decide)⟩

/-- Witness for C8: the three amended reset rules at concrete ticks. -/
theorem monitor_counter_reset_spec_witness :
    validate_momentum_change 50 55 20 = true ∧
    (monitorTick { last_momentum := 50, consecutive_failures := 2 }
      (.fetchOk 55 true)).1.consecutive_failures = 0 ∧
    (monitorTick { last_momentum := 50, consecutive_failures := 2 }
      (.fetchOk 55 false)).1.consecutive_failures = 2 + 1 ∧
    validate_momentum_change 50 80 20 = false ∧
    (monitorTick { last_momentum := 50, consecutive_failures := 2 }
      (.fetchOk 80 true)).1 =
      { last_momentum := 50, consecutive_failures := 2 } :=
  ⟨by decide,
   (monitor_counter_reset_spec
      { last_momentum := 50, consecutive_failures := 2 } 55 true).1
      (by decide) rfl,
   (monitor_counter_reset_spec
      { last_momentum := 50, consecutive_failures := 2 } 55 false).2.1
      (by decide) rfl,
   by decide,
   (monitor_counter_reset_spec
      { last_momentum := 50, consecutive_failures := 2 } 80 true).2.2
      (by decide)⟩

/-- Witness for C9: the out-of-band reading 80 against trusted index 50
changes nothing and publishes nothing. -/
theorem monitor_invalid_reading_frame_witness :
    validate_momentum_change monitorInit.last_momentum 80 20 = false ∧
    monitorTick monitorInit (.fetchOk 80 true) =
      (monitorInit, .noPublish) :=
  ⟨by decide, monitor_invalid_reading_frame monitorInit 80 true (by decide)⟩

/-- Witness for C10: the first reading 55 is published, the first
reading 80 is rejected. -/
theorem monitor_initial_trust_band_witness :
    (monitorTick monitorInit (.fetchOk 55 true)).2 = .published 55 ∧
    (monitorTick monitorInit (.fetchOk 80 true)).2 = .noPublish :=
  ⟨(monitor_initial_trust_band.2.2.2.1 55).2 (by decide),
   (monitor_initial_trust_band.2.2.2.2 80).2 (by decide)⟩

end Futstar
